import Mathlib

/-!
Shallow embedding of the async task-tracking pattern of the anime-filter-api
repository (Express route modules `anime-filter.ts`, `muscle-surge.ts`,
`jellycat-effect.ts`, and the older variant-3 revision of `anime-filter.ts`).

Each route module owns a private in-memory task map (`tasks`), a start-task
handler, a background worker (`processImageWithSegmind`), a status responder,
and for some modules an expiry sweeper.  JavaScript objects are modelled as
finite maps `String → Option τ`; JSON values parsed from vendor responses are
modelled by the inductive `JVal`; network and storage calls are modelled by
`Except String`-valued environment fields (an `error` is a thrown exception
carrying `err.message`).
-/

/-- JSON values, as far as the route modules inspect them
(member access, array index 0, string extraction). -/
inductive JVal : Type
  | str (s : String)
  | arr (l : List JVal)
  | obj (l : List (String × JVal))
  | other

/-- Association lookup inside a JSON object literal. -/
def lookupJ : List (String × JVal) → String → Option JVal
  | [], _ => none
  | (k2, v) :: rest, k => if k2 = k then some v else lookupJ rest k

/-- JavaScript member access `j.k` (undefined - `none` - when `j` is not an
object or lacks the field). -/
def getField (j : JVal) (k : String) : Option JVal :=
  match j with
  | .obj l => lookupJ l k
  | _ => none

/-- JavaScript `j[0]` on an array value. -/
def index0 : JVal → Option JVal
  | .arr (x :: _) => some x
  | _ => none

/-- Extract a string value. -/
def asString : JVal → Option String
  | .str s => some s
  | _ => none

/-- JavaScript truthiness of an optional string (`undefined` and `""` are
falsy). -/
def jsTruthy : Option String → Bool
  | none => false
  | some s => s ≠ ""

/-- JavaScript `a || b` on optional strings (first truthy operand). -/
def jsOr (a b : Option String) : Option String :=
  if jsTruthy a then a else b

/-- JavaScript `a || b` where `a` is an optional number and `b` a number
(`undefined` and `0` are falsy). -/
def jsOrNat (a : Option Nat) (b : Nat) : Nat :=
  match a with
  | none => b
  | some n => if n = 0 then b else n

/-- List-of-characters version of `startsWith` (first argument is the
pattern). -/
def startsWithL : List Char → List Char → Bool
  | [], _ => true
  | _ :: _, [] => false
  | a :: as, b :: bs => a = b && startsWithL as bs

/-- Does the pattern occur as a contiguous run of the text? -/
def hasSub : List Char → List Char → Bool
  | pat, [] => startsWithL pat []
  | pat, c :: rest => startsWithL pat (c :: rest) || hasSub pat rest

/-- JavaScript `h.includes(n)` on strings. -/
def includesStr (h n : String) : Bool :=
  hasSub n.data h.data

/-- The regex test `/^https?:\/\//.test(s)` used by every start-task
validator. -/
def urlOk (s : String) : Bool :=
  startsWithL "http://".data s.data || startsWithL "https://".data s.data

/-- JavaScript `Array.prototype.join(sep)`. -/
def joinSep (sep : String) : List String → String
  | [] => ""
  | [x] => x
  | x :: y :: xs => x ++ sep ++ joinSep sep (y :: xs)

/-- The `err.message || 'Server error'` pattern of every worker catch
block. -/
def catchMsg (m : String) : String :=
  if m = "" then "Server error" else m

/-- Task status, shared by every route module. -/
inductive TStatus : Type
  | pending
  | success
  | failed
deriving DecidableEq, Repr

/-- Is the status terminal? -/
def isTerminal : TStatus → Bool
  | .pending => false
  | .success => true
  | .failed => true

/-- A JavaScript object used as a map is a finite map from string keys. -/
def StoreF (τ : Type) : Type := String → Option τ

/-- The empty task map each module starts with. -/
def emptyStore {τ : Type} : StoreF τ := fun _ => none

/-- JavaScript `obj[k] = v`. -/
def setStore {τ : Type} (s : StoreF τ) (k : String) (v : τ) : StoreF τ :=
  fun k2 => if k2 = k then some v else s k2

/-- JavaScript `delete obj[k]`. -/
def delStore {τ : Type} (s : StoreF τ) (k : String) : StoreF τ :=
  fun k2 => if k2 = k then none else s k2

/-- The body of the JSON responses sent by the route handlers; absent fields
are `none`. -/
structure ResBody where
  success : Bool
  status : Option String := none
  taskId : Option String := none
  resultUrl : Option String := none
  error : Option String := none
  processTime : Option Nat := none
  waitTime : Option Nat := none
deriving DecidableEq, Repr

/-- An HTTP response: status code plus JSON body (`res.json` without
`res.status` sends 200). -/
structure HttpResponse where
  httpStatus : Nat
  body : ResBody
deriving DecidableEq, Repr

/-- The shape of a vendor (Segmind) HTTP response as the workers inspect it:
`ok`/`status` flags, `content-type` header, raw body text, the body as base64
(for the binary branches), and the result of parsing the body as JSON
(`Except.error` models a JSON parse exception with its message). -/
structure VendorResponse where
  ok : Bool
  status : Nat
  contentType : String
  bodyText : String := ""
  binaryBase64 : String := ""
  json : Except String JVal := .error "invalid json response body"

namespace AnimeFilter

/-- Task record of `anime-filter.ts` (note: no `createdAt` field). -/
structure Task where
  status : TStatus
  imageUrl : Option String := none
  error : Option String := none
deriving DecidableEq, Repr

/-- The module-private task map. -/
abbrev Store := StoreF Task

/-- `SUPPORTED_STYLES` of `anime-filter.ts`. -/
def SUPPORTED_STYLES : List String := ["ghibli"]

/-- Environment of one background-worker run: whether `SEGMIND_API_KEY` is
set, and the outcome of the vendor `fetch` (`error` = network throw). -/
structure Env where
  apiKeySet : Bool
  vendor : Except String VendorResponse

/-- The optional chain `result.images?.[0]?.url`. -/
def extractImageUrl (j : JVal) : Option String :=
  ((getField j "images").bind index0).bind (fun i => (getField i "url").bind asString)

/-- The `try` body of `processImageWithSegmind` after the initial pending
write: each `throw` is an `Except.error` carrying the exception message. -/
def processBody (env : Env) (style : String) : Except String Task :=
  if ¬ (style ∈ SUPPORTED_STYLES) then .error "Only ghibli style is supported"
  else if ¬ env.apiKeySet then .error "SEGMIND_API_KEY is not set"
  else match env.vendor with
  | .error m => .error m
  | .ok r =>
    if ¬ r.ok then .error ("Segmind API error: " ++ toString r.status)
    else if ¬ includesStr r.contentType "application/json" then
      .error ("Segmind API did not return JSON (got " ++ r.contentType ++ ")")
    else match r.json with
    | .error _ => .error "Failed to parse JSON from Segmind"
    | .ok j =>
      if jsTruthy (extractImageUrl j) then .ok { status := .success, imageUrl := extractImageUrl j }
      else .error "Segmind API JSON missing image URL"

/-- The record `processImageWithSegmind` leaves once it finishes (the catch
block turns any thrown error into a `failed` record). -/
def processResult (env : Env) (style : String) : Task :=
  match processBody env style with
  | .ok t => t
  | .error m => { status := .failed, error := some (catchMsg m) }

/-- The whole worker as a store transformer: the pre-await pending write
followed by the terminal write. -/
def processImageWithSegmind (s : Store) (taskId : String) (env : Env) (style : String) : Store :=
  setStore (setStore s taskId { status := .pending }) taskId (processResult env style)

/-- Request body of `POST /api/anime-filter/start-task`; `none` models an
absent or non-string field. -/
structure StartReq where
  imageUrl : Option String := none
  style : Option String := none

/-- The start-task handler.  On valid input it generates `freshId`, starts the
worker without awaiting it (so the worker's first, pre-await statement - the
pending write - runs before the response is produced), and responds with the
task id. -/
def startTask (s : Store) (req : StartReq) (freshId : String) : HttpResponse × Store :=
  if ¬ (jsTruthy req.imageUrl && urlOk (req.imageUrl.getD "")) then
    (⟨400, { success := false, error := some "Invalid imageUrl parameter" }⟩, s)
  else if ¬ (jsTruthy req.style && decide (req.style.getD "" ∈ SUPPORTED_STYLES)) then
    (⟨400, { success := false, error := some "Only ghibli style is supported" }⟩, s)
  else
    (⟨200, { success := true, taskId := some freshId }⟩,
      setStore s freshId { status := .pending })

/-- The status responder `GET /api/anime-filter/status/:taskId` (read-only; the
module has no sweeper and no lazy expiry, and the handler does not consult any
clock). -/
def statusResponder (s : Store) (taskId : String) : HttpResponse :=
  if taskId = "" then
    ⟨400, { success := false, error := some "Missing taskId parameter" }⟩
  else match s taskId with
  | none => ⟨404, { success := false, status := some "not_found", error := some "Task not found" }⟩
  | some t =>
    match t.status with
    | .success => ⟨200, { success := true, status := some "success", resultUrl := t.imageUrl }⟩
    | .failed => ⟨500, { success := false, status := some "failed", error := t.error }⟩
    | .pending => ⟨200, { success := false, status := some "pending" }⟩

/-- Later store writes by background workers of this module (each completed
worker writes its terminal record under its task id). -/
def applyWrites (s : Store) : List (String × Task) → Store
  | [] => s
  | (k, v) :: rest => applyWrites (setStore s k v) rest

end AnimeFilter

theorem setStore_self {τ : Type} (s : StoreF τ) (k : String) (v : τ) :
    setStore s k v k = some v := by
  simp [setStore]

theorem setStore_ne {τ : Type} (s : StoreF τ) (k k2 : String) (v : τ) (h : k2 ≠ k) :
    setStore s k v k2 = s k2 := by
  simp [setStore, h]

theorem setStore_isSome {τ : Type} (s : StoreF τ) (k k2 : String) (v v2 : τ)
    (h : s k2 = some v2) : ∃ w, setStore s k v k2 = some w := by
  by_cases hk : k2 = k
  · exact ⟨v, by simp [setStore, hk]⟩
  · exact ⟨v2, by simp [setStore, hk, h]⟩

theorem applyWrites_isSome (s : AnimeFilter.Store) (ws : List (String × AnimeFilter.Task))
    (k : String) (v : AnimeFilter.Task) (h : s k = some v) :
    ∃ w, AnimeFilter.applyWrites s ws k = some w := by
  induction ws generalizing s v with
  | nil => exact ⟨v, h⟩
  | cons p rest ih =>
    obtain ⟨w, hw⟩ := setStore_isSome s p.1 k p.2 v h
    exact ih (setStore s p.1 p.2) w hw

/-- C1: for every valid start-task request of the anime-filter module, the
pending record is inserted before the response carrying the `taskId` is sent
(the worker's first, pre-await statement writes it), so a status query for
that `taskId` - after any number of further worker writes, the module having
no sweeper - never returns `not_found`. -/
theorem startTask_inserts_before_response
    (s : AnimeFilter.Store) (req : AnimeFilter.StartReq) (freshId tid : String)
    (hfresh : freshId ≠ "")
    (hresp : (AnimeFilter.startTask s req freshId).1.body.taskId = some tid) :
    (AnimeFilter.startTask s req freshId).2 tid = some { status := .pending } ∧
    ∀ ws : List (String × AnimeFilter.Task),
      (AnimeFilter.statusResponder
        (AnimeFilter.applyWrites (AnimeFilter.startTask s req freshId).2 ws) tid).httpStatus ≠ 404 ∧
      (AnimeFilter.statusResponder
        (AnimeFilter.applyWrites (AnimeFilter.startTask s req freshId).2 ws) tid).body.status ≠
        some "not_found" := by
  unfold AnimeFilter.startTask at hresp ⊢
  by_cases h1 : jsTruthy req.imageUrl && urlOk (req.imageUrl.getD "")
  · by_cases h2 : jsTruthy req.style && decide (req.style.getD "" ∈ AnimeFilter.SUPPORTED_STYLES)
    · simp [h1, h2] at hresp ⊢
      subst hresp
      refine ⟨setStore_self _ _ _, ?_⟩
      intro ws
      obtain ⟨w, hw⟩ := applyWrites_isSome _ ws freshId { status := .pending } (setStore_self s freshId _)
      unfold AnimeFilter.statusResponder
      rw [if_neg hfresh, hw]
      obtain ⟨st, iu, er⟩ := w
      cases st <;> simp
    · simp [h1, h2] at hresp
  · simp [h1] at hresp

/-- Witness for C1 at a concrete valid request. -/
theorem startTask_inserts_before_response_witness :
    (AnimeFilter.startTask emptyStore
        { imageUrl := some "https://example.com/a.jpg", style := some "ghibli" } "id1").2 "id1" =
      some { status := .pending } ∧
    (AnimeFilter.statusResponder
      (AnimeFilter.applyWrites
        (AnimeFilter.startTask emptyStore
          { imageUrl := some "https://example.com/a.jpg", style := some "ghibli" } "id1").2 [])
      "id1").httpStatus ≠ 404 := by
  have h := startTask_inserts_before_response emptyStore
    { imageUrl := some "https://example.com/a.jpg", style := some "ghibli" } "id1" "id1"
    (by decide) (by decide)
  exact ⟨h.1, (h.2 []).1⟩

namespace MuscleSurge

/-- Task record of `muscle-surge.ts` (has a `createdAt` timestamp). -/
structure Task where
  status : TStatus
  videoUrl : Option String := none
  error : Option String := none
  createdAt : Nat
deriving DecidableEq, Repr

/-- The module-private task map. -/
abbrev Store := StoreF Task

/-- `SUPPORTED_QUALITIES` of `muscle-surge.ts`. -/
def SUPPORTED_QUALITIES : List String := ["360p", "540p", "720p", "1080p"]

/-- `SUPPORTED_MOTION_MODES` of `muscle-surge.ts`. -/
def SUPPORTED_MOTION_MODES : List String := ["normal", "fast"]

/-- Retention window of the sweeper: two hours in milliseconds. -/
def TWO_HOURS_MS : Nat := 2 * 60 * 60 * 1000

/-- Environment of one background-worker run: `SEGMIND_API_KEY` presence, the
outcome of `fetchImageAsBase64` (`error` = axios throw), the vendor `fetch`
outcome, and the Cloudinary upload outcome (`error` = upload rejection). -/
structure Env where
  apiKeySet : Bool
  fetchImage : Except String String
  vendor : Except String VendorResponse
  upload : Except String String

/-- The extraction `result.output?.url || result.url || result.videoUrl`
followed by the `if (!url)` truthiness test of the JSON branch. -/
def extractVideoUrl (j : JVal) : Option String :=
  jsOr (jsOr (((getField j "output").bind (fun o => getField o "url")).bind asString)
        ((getField j "url").bind asString))
    ((getField j "videoUrl").bind asString)

/-- The `try` body of `processImageWithSegmind` after the initial pending
write, producing the result `videoUrl` value on success. -/
def processBody (env : Env) (duration : Int) (quality motionMode : String) :
    Except String String :=
  if ¬ (quality ∈ SUPPORTED_QUALITIES) then
    .error ("Quality not supported. Supported qualities: " ++ joinSep ", " SUPPORTED_QUALITIES)
  else if ¬ (motionMode ∈ SUPPORTED_MOTION_MODES) then
    .error ("Motion mode not supported. Supported modes: " ++ joinSep ", " SUPPORTED_MOTION_MODES)
  else if duration ≠ 5 then
    .error "Duration not supported. Only supported duration: 5 seconds"
  else if ¬ env.apiKeySet then .error "SEGMIND_API_KEY is not set"
  else match env.fetchImage with
  | .error m => .error m
  | .ok _ =>
    match env.vendor with
    | .error m => .error m
    | .ok r =>
      if ¬ r.ok then .error ("Segmind API error: " ++ toString r.status)
      else if includesStr r.contentType "image/jpeg" || includesStr r.contentType "video/mp4" then
        match env.upload with
        | .ok cloudinaryUrl => .ok cloudinaryUrl
        | .error _ => .ok ("data:" ++ r.contentType ++ ";base64," ++ r.binaryBase64)
      else if includesStr r.contentType "application/json" then
        match r.json with
        | .error m => .error m
        | .ok j =>
          let url := extractVideoUrl j
          if jsTruthy url then .ok (url.getD "")
          else .error "Segmind API JSON missing video URL"
      else .error ("Unsupported content type: " ++ r.contentType ++ "\nBody: " ++ r.bodyText)

/-- The whole worker as a store transformer: the pre-await pending write
stamped `now`, then the terminal write; the success write keeps
`tasks[taskId].createdAt`, the catch write uses
`tasks[taskId]?.createdAt || Date.now()`. -/
def processImageWithSegmind (s : Store) (taskId : String) (env : Env)
    (duration : Int) (quality motionMode : String) (now : Nat) : Store :=
  let s1 := setStore s taskId { status := .pending, createdAt := now }
  match processBody env duration quality motionMode with
  | .ok url =>
    match s1 taskId with
    | some t0 => setStore s1 taskId { status := .success, videoUrl := some url, createdAt := t0.createdAt }
    | none => s1
  | .error m =>
    setStore s1 taskId
      { status := .failed, error := some (catchMsg m),
        createdAt := jsOrNat ((s1 taskId).map Task.createdAt) now }

/-- Request body of `POST /api/muscle-surge/start-task` with the destructuring
defaults of the handler already applied. -/
structure StartReq where
  imageUrl : Option String := none
  duration : Int := 5
  quality : String := "540p"
  seed : Int := 56698
  motionMode : String := "normal"

/-- The start-task handler: validation, then fresh id, then the worker's
pre-await pending write, then the 200 response with the task id. -/
def startTask (s : Store) (req : StartReq) (freshId : String) (now : Nat) :
    HttpResponse × Store :=
  if ¬ (jsTruthy req.imageUrl && urlOk (req.imageUrl.getD "")) then
    (⟨400, { success := false, error := some "Invalid imageUrl parameter" }⟩, s)
  else if req.duration ≠ 5 then
    (⟨400, { success := false,
             error := some "Duration not supported. Only supported duration: 5 seconds" }⟩, s)
  else if ¬ (req.quality ∈ SUPPORTED_QUALITIES) then
    (⟨400, { success := false,
             error := some ("Quality not supported. Supported qualities: " ++
               joinSep ", " SUPPORTED_QUALITIES) }⟩, s)
  else if ¬ (req.motionMode ∈ SUPPORTED_MOTION_MODES) then
    (⟨400, { success := false,
             error := some ("Motion mode not supported. Supported modes: " ++
               joinSep ", " SUPPORTED_MOTION_MODES) }⟩, s)
  else
    (⟨200, { success := true, taskId := some freshId }⟩,
      setStore s freshId { status := .pending, createdAt := now })

/-- The status responder `GET /api/muscle-surge/status/:taskId` (read-only). -/
def statusResponder (s : Store) (taskId : String) (now : Nat) : HttpResponse :=
  if taskId = "" then
    ⟨400, { success := false, error := some "Missing taskId parameter" }⟩
  else match s taskId with
  | none => ⟨404, { success := false, status := some "not_found", error := some "Task not found" }⟩
  | some t =>
    match t.status with
    | .success => ⟨200, { success := true, status := some "success", resultUrl := t.videoUrl,
                          processTime := some (now - t.createdAt) }⟩
    | .failed => ⟨500, { success := false, status := some "failed", error := t.error,
                         processTime := some (now - t.createdAt) }⟩
    | .pending => ⟨200, { success := false, status := some "pending",
                          waitTime := some (now - t.createdAt) }⟩

/-- The periodic sweeper: deletes every record with
`createdAt < Date.now() - 2h`, looking only at the age. -/
def sweepTasks (s : Store) (now : Nat) : Store := fun k =>
  match s k with
  | some t => if t.createdAt < now - TWO_HOURS_MS then none else some t
  | none => none

end MuscleSurge

namespace Jellycat

/-- Task record of `jellycat-effect.ts`. -/
structure Task where
  status : TStatus
  videoUrl : Option String := none
  error : Option String := none
  createdAt : Nat
deriving DecidableEq, Repr

/-- The module-private task map. -/
abbrev Store := StoreF Task

/-- `SUPPORTED_MODES` of `jellycat-effect.ts`. -/
def SUPPORTED_MODES : List String := ["pro", "normal"]

/-- `SUPPORTED_DURATIONS` of `jellycat-effect.ts` (seconds). -/
def SUPPORTED_DURATIONS : List Int := [5, 10]

/-- Lazy-expiry window of the status handler: 24 hours in milliseconds. -/
def DAY_MS : Nat := 24 * 60 * 60 * 1000

/-- Environment of one background-worker run (same shape as muscle-surge). -/
structure Env where
  apiKeySet : Bool
  fetchImage : Except String String
  vendor : Except String VendorResponse
  upload : Except String String

/-- The optional chain `result.video?.[0]?.url`. -/
def extractVideoUrl (j : JVal) : Option String :=
  ((getField j "video").bind index0).bind (fun i => (getField i "url").bind asString)

/-- The `try` body of `processImageWithSegmind` after the initial pending
write, producing the result `videoUrl` value on success. -/
def processBody (env : Env) (mode : String) (duration : Int) : Except String String :=
  if ¬ (mode ∈ SUPPORTED_MODES) then
    .error ("Mode not supported. Supported modes: " ++ joinSep ", " SUPPORTED_MODES)
  else if ¬ (duration ∈ SUPPORTED_DURATIONS) then
    .error ("Duration not supported. Supported durations: " ++
      joinSep ", " (SUPPORTED_DURATIONS.map toString))
  else if ¬ env.apiKeySet then .error "SEGMIND_API_KEY is not set"
  else match env.fetchImage with
  | .error m => .error m
  | .ok _ =>
    match env.vendor with
    | .error m => .error m
    | .ok r =>
      if ¬ r.ok then .error ("Segmind API error: " ++ toString r.status)
      else if includesStr r.contentType "image/jpeg" || includesStr r.contentType "video/mp4" then
        match env.upload with
        | .ok cloudinaryUrl => .ok cloudinaryUrl
        | .error _ => .ok ("data:" ++ r.contentType ++ ";base64," ++ r.binaryBase64)
      else if includesStr r.contentType "application/json" then
        match r.json with
        | .error m => .error m
        | .ok j =>
          let url := extractVideoUrl j
          if jsTruthy url then .ok (url.getD "")
          else .error "Segmind API JSON missing video URL"
      else .error ("Unsupported content type: " ++ r.contentType ++ "\nBody: " ++ r.bodyText)

/-- The whole worker as a store transformer (same write pattern as
muscle-surge). -/
def processImageWithSegmind (s : Store) (taskId : String) (env : Env)
    (mode : String) (duration : Int) (now : Nat) : Store :=
  let s1 := setStore s taskId { status := .pending, createdAt := now }
  match processBody env mode duration with
  | .ok url =>
    match s1 taskId with
    | some t0 => setStore s1 taskId { status := .success, videoUrl := some url, createdAt := t0.createdAt }
    | none => s1
  | .error m =>
    setStore s1 taskId
      { status := .failed, error := some (catchMsg m),
        createdAt := jsOrNat ((s1 taskId).map Task.createdAt) now }

/-- The lazy cleanup the status handler performs before the lookup: deletes
every record with a truthy `createdAt` and `now - createdAt > 24h`. -/
def cleanupTasks (s : Store) (now : Nat) : Store := fun k =>
  match s k with
  | some t => if t.createdAt ≠ 0 ∧ now - t.createdAt > DAY_MS then none else some t
  | none => none

/-- The status responder `GET /api/jellycat-effect/status/:taskId`; it mutates
the store (lazy expiry), so it returns the response together with the store it
leaves behind. -/
def statusResponder (s : Store) (taskId : String) (now : Nat) : HttpResponse × Store :=
  if taskId = "" then
    (⟨400, { success := false, error := some "Missing taskId parameter" }⟩, s)
  else
    let s2 := cleanupTasks s now
    match s2 taskId with
    | none => (⟨404, { success := false, status := some "not_found",
                       error := some "Task not found or expired" }⟩, s2)
    | some t =>
      match t.status with
      | .success => (⟨200, { success := true, status := some "success", resultUrl := t.videoUrl }⟩, s2)
      | .failed => (⟨200, { success := false, status := some "failed",
                            error := some ((jsOr t.error (some "Processing failed")).getD "") }⟩, s2)
      | .pending => (⟨200, { success := true, status := some "pending" }⟩, s2)

end Jellycat

namespace AnimeFilterV3

/-- Task record of the variant-3 revision of `anime-filter.ts` (same shape as
the current module). -/
structure Task where
  status : TStatus
  imageUrl : Option String := none
  error : Option String := none
deriving DecidableEq, Repr

/-- Environment of one background-worker run of the variant-3 worker. -/
structure Env where
  apiKeySet : Bool
  vendor : Except String VendorResponse

/-- The access `result.image` of the variant-3 worker (the response is read as
`{ image?: string }`). -/
def extractImage (j : JVal) : Option String :=
  (getField j "image").bind asString

/-- The `try` body of the variant-3 `processImageWithSegmind` after the
initial pending write. -/
def processBody (env : Env) (style : String) : Except String Task :=
  if ¬ (style ∈ AnimeFilter.SUPPORTED_STYLES) then .error "Only ghibli style is supported"
  else if ¬ env.apiKeySet then .error "SEGMIND_API_KEY is not set"
  else match env.vendor with
  | .error m => .error m
  | .ok r =>
    if ¬ r.ok then .error ("Segmind API error: Status " ++ toString r.status)
    else if ¬ includesStr r.contentType "application/json" then
      .error "Segmind API did not return JSON"
    else match r.json with
    | .error m => .error m
    | .ok j =>
      let img := extractImage j
      if jsTruthy img then .ok { status := .success, imageUrl := img }
      else .error "Segmind API did not return image"

/-- The record the variant-3 worker leaves once it finishes. -/
def processResult (env : Env) (style : String) : Task :=
  match processBody env style with
  | .ok t => t
  | .error m => { status := .failed, error := some (catchMsg m) }

end AnimeFilterV3

theorem catchMsg_ne (m : String) : catchMsg m ≠ "" := by
  unfold catchMsg
  split
  · decide
  · assumption

theorem urlOk_ne_empty (u : String) (h : urlOk u = true) : u ≠ "" := by
  intro he
  subst he
  exact absurd h (by decide)

theorem animeProcessBody_ok (env : AnimeFilter.Env) (style : String) (t : AnimeFilter.Task)
    (h : AnimeFilter.processBody env style = .ok t) : t.status = .success := by
  unfold AnimeFilter.processBody at h
  repeat' split at h
  all_goals first
    | · injection h with h2
        rw [← h2]
    | simp at h

/-- C3: no fault escapes a background worker: for every environment (any
combination of network failures, vendor statuses, content types, JSON parse
results, missing fields and upload failures) the anime-filter worker's final
record and the muscle-surge worker's final store entry are terminal, and
every failure path carries a nonempty error message. -/
theorem worker_never_leaves_pending :
    (∀ (env : AnimeFilter.Env) (style : String),
      (AnimeFilter.processResult env style).status = .success ∨
      ((AnimeFilter.processResult env style).status = .failed ∧
        (AnimeFilter.processResult env style).error.getD "" ≠ "")) ∧
    (∀ (s : MuscleSurge.Store) (taskId : String) (env : MuscleSurge.Env)
        (d : Int) (q mm : String) (now : Nat),
      ∃ t, MuscleSurge.processImageWithSegmind s taskId env d q mm now taskId = some t ∧
        (t.status = .success ∨ (t.status = .failed ∧ t.error.getD "" ≠ ""))) := by
  constructor
  · intro env style
    unfold AnimeFilter.processResult
    cases h : AnimeFilter.processBody env style with
    | ok t => exact Or.inl (animeProcessBody_ok env style t h)
    | error m => exact Or.inr ⟨rfl, by simpa using catchMsg_ne m⟩
  · intro s taskId env d q mm now
    unfold MuscleSurge.processImageWithSegmind
    cases h : MuscleSurge.processBody env d q mm with
    | ok url =>
      rw [setStore_self]
      exact ⟨_, setStore_self _ _ _, Or.inl rfl⟩
    | error m =>
      exact ⟨_, setStore_self _ _ _, Or.inr ⟨rfl, by simpa using catchMsg_ne m⟩⟩

/-- C4: if the vendor returns binary media (`image/jpeg` or `video/mp4` in the
content type) and the Cloudinary upload fails, the muscle-surge and jellycat
workers still mark the task `success`, inlining the response bytes as a
`data:<contentType>;base64,...` URL. -/
theorem binary_upload_failure_inlines_data_url :
    (∀ (s : MuscleSurge.Store) (taskId : String) (env : MuscleSurge.Env)
        (q mm : String) (now : Nat) (r : VendorResponse) (e : String),
      q ∈ MuscleSurge.SUPPORTED_QUALITIES →
      mm ∈ MuscleSurge.SUPPORTED_MOTION_MODES →
      env.apiKeySet = true →
      (∃ b, env.fetchImage = .ok b) →
      env.vendor = .ok r →
      r.ok = true →
      (includesStr r.contentType "image/jpeg" || includesStr r.contentType "video/mp4") = true →
      env.upload = .error e →
      MuscleSurge.processImageWithSegmind s taskId env 5 q mm now taskId =
        some { status := .success,
               videoUrl := some ("data:" ++ r.contentType ++ ";base64," ++ r.binaryBase64),
               createdAt := now }) ∧
    (∀ (s : Jellycat.Store) (taskId : String) (env : Jellycat.Env)
        (mode : String) (d : Int) (now : Nat) (r : VendorResponse) (e : String),
      mode ∈ Jellycat.SUPPORTED_MODES →
      d ∈ Jellycat.SUPPORTED_DURATIONS →
      env.apiKeySet = true →
      (∃ b, env.fetchImage = .ok b) →
      env.vendor = .ok r →
      r.ok = true →
      (includesStr r.contentType "image/jpeg" || includesStr r.contentType "video/mp4") = true →
      env.upload = .error e →
      Jellycat.processImageWithSegmind s taskId env mode d now taskId =
        some { status := .success,
               videoUrl := some ("data:" ++ r.contentType ++ ";base64," ++ r.binaryBase64),
               createdAt := now }) := by
  constructor
  · intro s taskId env q mm now r e hq hmm hkey ⟨b, hb⟩ hv hok hct hup
    have hbody : MuscleSurge.processBody env 5 q mm =
        .ok ("data:" ++ r.contentType ++ ";base64," ++ r.binaryBase64) := by
      unfold MuscleSurge.processBody
      rw [hb, hv, hup]
      simp [hq, hmm, hkey, hok, hct]
    unfold MuscleSurge.processImageWithSegmind
    rw [hbody]
    rw [setStore_self]
    exact setStore_self _ _ _
  · intro s taskId env mode d now r e hm hd hkey ⟨b, hb⟩ hv hok hct hup
    have hbody : Jellycat.processBody env mode d =
        .ok ("data:" ++ r.contentType ++ ";base64," ++ r.binaryBase64) := by
      unfold Jellycat.processBody
      rw [hb, hv, hup]
      simp [hm, hd, hkey, hok, hct]
    unfold Jellycat.processImageWithSegmind
    rw [hbody]
    rw [setStore_self]
    exact setStore_self _ _ _

/-- Witness for C4 at a concrete binary response with a failing upload. -/
theorem binary_upload_failure_inlines_data_url_witness :
    MuscleSurge.processImageWithSegmind emptyStore "t1"
        { apiKeySet := true, fetchImage := .ok "QUJD",
          vendor := .ok { ok := true, status := 200, contentType := "video/mp4",
                          binaryBase64 := "AAAA" },
          upload := .error "Cloudinary rejected" }
        5 "540p" "normal" 1000 "t1" =
      some { status := .success, videoUrl := some "data:video/mp4;base64,AAAA",
             createdAt := 1000 } := by
  have h := binary_upload_failure_inlines_data_url.1 emptyStore "t1"
    { apiKeySet := true, fetchImage := .ok "QUJD",
      vendor := .ok { ok := true, status := 200, contentType := "video/mp4",
                      binaryBase64 := "AAAA" },
      upload := .error "Cloudinary rejected" }
    "540p" "normal" 1000
    { ok := true, status := 200, contentType := "video/mp4", binaryBase64 := "AAAA" }
    "Cloudinary rejected"
    (by decide) (by decide) rfl ⟨"QUJD", rfl⟩ rfl rfl (by decide) rfl
  exact h

/-- A pending muscle-surge record created at epoch 0 whose worker is still in
flight (status `pending`, vendor call unresolved). -/
def pendingOldTask : MuscleSurge.Task := { status := .pending, createdAt := 0 }

/-- C6 counterexample: the muscle-surge sweeper deletes a record that is still
`pending` (worker in flight) as soon as it is older than the retention window:
at a sweep three hours after the record's creation, the record is removed even
though its status is `pending`. -/
theorem sweeper_deletes_inflight_pending_counterexample :
    pendingOldTask.status = .pending ∧
    (setStore emptyStore "task-a" pendingOldTask) "task-a" = some pendingOldTask ∧
    MuscleSurge.sweepTasks (setStore emptyStore "task-a" pendingOldTask)
      (3 * 60 * 60 * 1000) "task-a" = none := by
  refine ⟨rfl, by decide, by decide⟩

/-- C6 amended: the sweeper selects records by age alone, regardless of
status: a record older than the retention window is deleted even while
`pending` (worker still in flight), and a record within the window is kept. -/
theorem sweeper_selects_by_age_alone
    (s : MuscleSurge.Store) (id : String) (t : MuscleSurge.Task) (now : Nat)
    (h : s id = some t) :
    MuscleSurge.sweepTasks s now id =
      (if t.createdAt < now - MuscleSurge.TWO_HOURS_MS then none else some t) ∧
    (t.status = .pending → t.createdAt < now - MuscleSurge.TWO_HOURS_MS →
      MuscleSurge.sweepTasks s now id = none) := by
  constructor
  · unfold MuscleSurge.sweepTasks
    rw [h]
  · intro _ hage
    simp [MuscleSurge.sweepTasks, h, hage]

/-- Witness for the amended C6 at a concrete store. -/
theorem sweeper_selects_by_age_alone_witness :
    MuscleSurge.sweepTasks (setStore emptyStore "task-a" pendingOldTask)
      (3 * 60 * 60 * 1000) "task-a" = none := by
  have h := sweeper_selects_by_age_alone (setStore emptyStore "task-a" pendingOldTask)
    "task-a" pendingOldTask (3 * 60 * 60 * 1000) (by decide)
  exact h.2 rfl (by decide)

/-- C7: a start-task request failing validation yields HTTP 400 with the
allowed values in the error and leaves the task store untouched (no record
created, no identifier issued): `imageUrl = "not-a-url"` yields 400 mentioning
`imageUrl`; an unsupported style yields 400 enumerating the supported styles;
an unsupported muscle-surge quality yields 400 enumerating the supported
qualities. -/
theorem validation_failure_is_400_without_task :
    (∀ (s : AnimeFilter.Store) (st : Option String) (id : String),
      AnimeFilter.startTask s { imageUrl := some "not-a-url", style := st } id =
        (⟨400, { success := false, error := some "Invalid imageUrl parameter" }⟩, s)) ∧
    includesStr "Invalid imageUrl parameter" "imageUrl" = true ∧
    (∀ (s : AnimeFilter.Store) (u st id : String), urlOk u = true →
      st ∉ AnimeFilter.SUPPORTED_STYLES →
      AnimeFilter.startTask s { imageUrl := some u, style := some st } id =
        (⟨400, { success := false, error := some "Only ghibli style is supported" }⟩, s)) ∧
    (∀ x ∈ AnimeFilter.SUPPORTED_STYLES,
      includesStr "Only ghibli style is supported" x = true) ∧
    (∀ (s : MuscleSurge.Store) (u q id : String) (now : Nat), urlOk u = true →
      q ∉ MuscleSurge.SUPPORTED_QUALITIES →
      MuscleSurge.startTask s { imageUrl := some u, quality := q } id now =
        (⟨400, { success := false,
                 error := some ("Quality not supported. Supported qualities: " ++
                   joinSep ", " MuscleSurge.SUPPORTED_QUALITIES) }⟩, s)) ∧
    (∀ x ∈ MuscleSurge.SUPPORTED_QUALITIES,
      includesStr ("Quality not supported. Supported qualities: " ++
        joinSep ", " MuscleSurge.SUPPORTED_QUALITIES) x = true) := by
  refine ⟨?_, by decide, ?_, by decide, ?_, by decide⟩
  · intro s st id
    have hc : (jsTruthy (some "not-a-url") && urlOk "not-a-url") = false := by decide
    simp [AnimeFilter.startTask, hc]
  · intro s u st id hu hst
    have h1 : (jsTruthy (some u) && urlOk u) = true := by
      simp [jsTruthy, urlOk_ne_empty u hu, hu]
    have h2 : (jsTruthy (some st) && decide (st ∈ AnimeFilter.SUPPORTED_STYLES)) = false := by
      simp [hst]
    simp [AnimeFilter.startTask, h1, h2]
  · intro s u q id now hu hq
    have h1 : (jsTruthy (some u) && urlOk u) = true := by
      simp [jsTruthy, urlOk_ne_empty u hu, hu]
    simp [MuscleSurge.startTask, h1, hq]

/-- Witness for C7 at concrete invalid requests. -/
theorem validation_failure_is_400_without_task_witness :
    AnimeFilter.startTask emptyStore
        { imageUrl := some "not-a-url", style := some "ghibli" } "id9" =
      (⟨400, { success := false, error := some "Invalid imageUrl parameter" }⟩, emptyStore) ∧
    AnimeFilter.startTask emptyStore
        { imageUrl := some "https://example.com/a.jpg", style := some "unsupported_style" } "id9" =
      (⟨400, { success := false, error := some "Only ghibli style is supported" }⟩, emptyStore) ∧
    MuscleSurge.startTask emptyStore
        { imageUrl := some "https://example.com/a.jpg", quality := "4k" } "id9" 77 =
      (⟨400, { success := false,
               error := some ("Quality not supported. Supported qualities: " ++
                 joinSep ", " MuscleSurge.SUPPORTED_QUALITIES) }⟩, emptyStore) := by
  refine ⟨validation_failure_is_400_without_task.1 emptyStore (some "ghibli") "id9",
    validation_failure_is_400_without_task.2.2.1 emptyStore
      "https://example.com/a.jpg" "unsupported_style" "id9" (by decide) (by decide),
    validation_failure_is_400_without_task.2.2.2.2.1 emptyStore
      "https://example.com/a.jpg" "4k" "id9" 77 (by decide) (by decide)⟩

/-- A terminal anime-filter record; the module stores no `createdAt`, so no
age can be attached to it. -/
def oldAnimeTask : AnimeFilter.Task := { status := .success, imageUrl := some "https://cdn/x.jpg" }

/-- C5 counterexample: the anime-filter module tracks tasks without a
`createdAt` field, defines no sweeper, and its status responder consults no
clock, so a stored record is returned (never `not_found`) by every status
query, no matter how much time has passed since its creation. -/
theorem anime_module_never_expires_counterexample :
    AnimeFilter.statusResponder (setStore emptyStore "old-task" oldAnimeTask) "old-task" =
      ⟨200, { success := true, status := some "success",
              resultUrl := some "https://cdn/x.jpg" }⟩ := by
  decide

/-- C5 amended: in the modules that stamp `createdAt`, records older than the
retention window become unreachable - the muscle-surge sweeper deletes them
and the next status query returns 404 `not_found`, and the jellycat status
handler deletes them lazily and answers 404 `not_found` - while the
anime-filter module (tasks without `createdAt`) never expires records. -/
theorem expiry_for_timestamped_modules
    (s : MuscleSurge.Store) (idm : String) (t : MuscleSurge.Task) (now : Nat)
    (hm : s idm = some t) (hage : t.createdAt < now - MuscleSurge.TWO_HOURS_MS)
    (hidm : idm ≠ "")
    (sj : Jellycat.Store) (idj : String) (tj : Jellycat.Task) (nowj : Nat)
    (hj : sj idj = some tj) (hcj : tj.createdAt ≠ 0) (hagej : nowj - tj.createdAt > Jellycat.DAY_MS)
    (hidj : idj ≠ "") :
    MuscleSurge.sweepTasks s now idm = none ∧
    MuscleSurge.statusResponder (MuscleSurge.sweepTasks s now) idm now =
      ⟨404, { success := false, status := some "not_found", error := some "Task not found" }⟩ ∧
    Jellycat.cleanupTasks sj nowj idj = none ∧
    (Jellycat.statusResponder sj idj nowj).1 =
      ⟨404, { success := false, status := some "not_found",
              error := some "Task not found or expired" }⟩ := by
  have hswept : MuscleSurge.sweepTasks s now idm = none := by
    simp [MuscleSurge.sweepTasks, hm, hage]
  have hclean : Jellycat.cleanupTasks sj nowj idj = none := by
    simp [Jellycat.cleanupTasks, hj, hcj, hagej]
  refine ⟨hswept, ?_, hclean, ?_⟩
  · simp [MuscleSurge.statusResponder, hidm, hswept]
  · simp [Jellycat.statusResponder, hidj, hclean]

/-- Witness for the amended C5 at concrete expired records. -/
theorem expiry_for_timestamped_modules_witness :
    MuscleSurge.sweepTasks
      (setStore emptyStore "m1" { status := TStatus.success, createdAt := 5 })
      (3 * 60 * 60 * 1000) "m1" = none ∧
    (Jellycat.statusResponder
      (setStore emptyStore "j1" { status := TStatus.success, createdAt := 5 })
      "j1" (25 * 60 * 60 * 1000)).1.httpStatus = 404 := by
  have h := expiry_for_timestamped_modules
    (setStore emptyStore "m1" { status := TStatus.success, createdAt := 5 })
    "m1" { status := TStatus.success, createdAt := 5 } (3 * 60 * 60 * 1000)
    (by decide) (by decide) (by decide)
    (setStore emptyStore "j1" { status := TStatus.success, createdAt := 5 })
    "j1" { status := TStatus.success, createdAt := 5 } (25 * 60 * 60 * 1000)
    (by decide) (by decide) (by decide) (by decide)
  exact ⟨h.1, by rw [h.2.2.2]⟩

/-- A pending anime-filter record. -/
def pendingAnimeTask : AnimeFilter.Task := { status := .pending }

/-- C9 counterexample: the anime-filter status endpoint answers a pending task
with HTTP 200 and body `{ success: false, status: "pending" }` - the
`success` flag is `false`, not `true` as claimed for every module. -/
theorem pending_success_flag_counterexample :
    (AnimeFilter.statusResponder (setStore emptyStore "p1" pendingAnimeTask) "p1").httpStatus = 200 ∧
    (AnimeFilter.statusResponder (setStore emptyStore "p1" pendingAnimeTask) "p1").body.status =
      some "pending" ∧
    (AnimeFilter.statusResponder (setStore emptyStore "p1" pendingAnimeTask) "p1").body.success =
      false := by
  decide

/-- C9 amended: a status query for an existing pending task returns HTTP 200
with status "pending", but the `success` flag is `false` in anime-filter and
muscle-surge and `true` in jellycat; a query for a succeeded task returns
HTTP 200 with `success: true`, status "success" and the module's result URL
in all three modules. -/
theorem status_endpoint_shapes :
    (∀ (s : AnimeFilter.Store) (id : String) (t : AnimeFilter.Task),
      id ≠ "" → s id = some t → t.status = .pending →
      AnimeFilter.statusResponder s id = ⟨200, { success := false, status := some "pending" }⟩) ∧
    (∀ (s : AnimeFilter.Store) (id : String) (t : AnimeFilter.Task),
      id ≠ "" → s id = some t → t.status = .success →
      AnimeFilter.statusResponder s id =
        ⟨200, { success := true, status := some "success", resultUrl := t.imageUrl }⟩) ∧
    (∀ (s : MuscleSurge.Store) (id : String) (t : MuscleSurge.Task) (now : Nat),
      id ≠ "" → s id = some t → t.status = .pending →
      MuscleSurge.statusResponder s id now =
        ⟨200, { success := false, status := some "pending",
                waitTime := some (now - t.createdAt) }⟩) ∧
    (∀ (s : MuscleSurge.Store) (id : String) (t : MuscleSurge.Task) (now : Nat),
      id ≠ "" → s id = some t → t.status = .success →
      MuscleSurge.statusResponder s id now =
        ⟨200, { success := true, status := some "success", resultUrl := t.videoUrl,
                processTime := some (now - t.createdAt) }⟩) ∧
    (∀ (s : Jellycat.Store) (id : String) (t : Jellycat.Task) (now : Nat),
      id ≠ "" → Jellycat.cleanupTasks s now id = some t → t.status = .pending →
      (Jellycat.statusResponder s id now).1 =
        ⟨200, { success := true, status := some "pending" }⟩) ∧
    (∀ (s : Jellycat.Store) (id : String) (t : Jellycat.Task) (now : Nat),
      id ≠ "" → Jellycat.cleanupTasks s now id = some t → t.status = .success →
      (Jellycat.statusResponder s id now).1 =
        ⟨200, { success := true, status := some "success", resultUrl := t.videoUrl }⟩) := by
  refine ⟨?_, ?_, ?_, ?_, ?_, ?_⟩
  · intro s id t hid hl hst
    simp [AnimeFilter.statusResponder, hid, hl, hst]
  · intro s id t hid hl hst
    simp [AnimeFilter.statusResponder, hid, hl, hst]
  · intro s id t now hid hl hst
    simp [MuscleSurge.statusResponder, hid, hl, hst]
  · intro s id t now hid hl hst
    simp [MuscleSurge.statusResponder, hid, hl, hst]
  · intro s id t now hid hl hst
    simp [Jellycat.statusResponder, hid, hl, hst]
  · intro s id t now hid hl hst
    simp [Jellycat.statusResponder, hid, hl, hst]

/-- Witness for the amended C9 at concrete pending and succeeded tasks. -/
theorem status_endpoint_shapes_witness :
    AnimeFilter.statusResponder (setStore emptyStore "p1" pendingAnimeTask) "p1" =
      ⟨200, { success := false, status := some "pending" }⟩ ∧
    MuscleSurge.statusResponder
        (setStore emptyStore "m2" { status := TStatus.success, videoUrl := some "https://v", createdAt := 3 })
        "m2" 10 =
      ⟨200, { success := true, status := some "success", resultUrl := some "https://v",
              processTime := some 7 }⟩ := by
  constructor
  · exact status_endpoint_shapes.1 (setStore emptyStore "p1" pendingAnimeTask) "p1"
      pendingAnimeTask (by decide) (by decide) rfl
  · exact status_endpoint_shapes.2.2.2.1
      (setStore emptyStore "m2" { status := TStatus.success, videoUrl := some "https://v", createdAt := 3 })
      "m2" { status := TStatus.success, videoUrl := some "https://v", createdAt := 3 } 10
      (by decide) (by decide) rfl

/-- The parsed JSON body of the C8 scenario:
`{ images: [{ url: "https://cdn/x.jpg" }] }`. -/
def scenarioJson : JVal :=
  JVal.obj [("images", JVal.arr [JVal.obj [("url", JVal.str "https://cdn/x.jpg")]])]

/-- The mocked vendor response of the C8 scenario: HTTP 200, JSON content
type, body `{ images: [{ url: "https://cdn/x.jpg" }] }`. -/
def scenarioVendor : VendorResponse :=
  { ok := true, status := 200, contentType := "application/json",
    bodyText := "scenario body", json := .ok scenarioJson }

/-- C8 counterexample: the variant-3 worker contained in `anime-filter.ts`
reads the result from a top-level `image` field, so on the very response of
the scenario it marks the task `failed` ("Segmind API did not return image")
rather than `success`. -/
theorem variant3_scenario_counterexample :
    AnimeFilterV3.processResult { apiKeySet := true, vendor := .ok scenarioVendor } "ghibli" =
      { status := .failed, error := some "Segmind API did not return image" } := by
  decide

/-- C8 amended: under the current anime-filter module (variant 1, extracting
`images[0].url`), a valid start-task whose vendor responds 200/JSON with
`{ images: [{ url: "https://cdn/x.jpg" }] }` reaches `success` and the status
query returns that URL; the variant-3 worker in the same source file, reading
a top-level `image` field, marks the same response `failed`. -/
theorem scenario_success_variant1
    (s : AnimeFilter.Store) (taskId : String) (hid : taskId ≠ "") :
    AnimeFilter.processImageWithSegmind s taskId
        { apiKeySet := true, vendor := .ok scenarioVendor } "ghibli" taskId =
      some { status := .success, imageUrl := some "https://cdn/x.jpg" } ∧
    AnimeFilter.statusResponder
        (AnimeFilter.processImageWithSegmind s taskId
          { apiKeySet := true, vendor := .ok scenarioVendor } "ghibli") taskId =
      ⟨200, { success := true, status := some "success",
              resultUrl := some "https://cdn/x.jpg" }⟩ := by
  have hres : AnimeFilter.processResult
      { apiKeySet := true, vendor := .ok scenarioVendor } "ghibli" =
      { status := .success, imageUrl := some "https://cdn/x.jpg" } := by decide
  have hfinal : AnimeFilter.processImageWithSegmind s taskId
      { apiKeySet := true, vendor := .ok scenarioVendor } "ghibli" taskId =
      some { status := .success, imageUrl := some "https://cdn/x.jpg" } := by
    unfold AnimeFilter.processImageWithSegmind
    rw [hres]
    exact setStore_self _ _ _
  refine ⟨hfinal, ?_⟩
  simp [AnimeFilter.statusResponder, hid, hfinal]

/-- Witness for the amended C8 at a concrete store and task id. -/
theorem scenario_success_variant1_witness :
    AnimeFilter.processImageWithSegmind emptyStore "t8"
        { apiKeySet := true, vendor := .ok scenarioVendor } "ghibli" "t8" =
      some { status := .success, imageUrl := some "https://cdn/x.jpg" } := by
  exact (scenario_success_variant1 emptyStore "t8" (by decide)).1

/-- The stores of two mounted route modules living side by side in the
process (`index.ts` mounts each router under its own path prefix; each keeps
its private `tasks` map). -/
structure SystemState where
  anime : AnimeFilter.Store
  muscle : MuscleSurge.Store

/-- `POST /api/anime-filter/start-task` at the system level: only the
anime-filter store is touched. -/
def startAnime (sys : SystemState) (req : AnimeFilter.StartReq) (freshId : String) :
    HttpResponse × SystemState :=
  ((AnimeFilter.startTask sys.anime req freshId).1,
   { sys with anime := (AnimeFilter.startTask sys.anime req freshId).2 })

/-- `GET /api/muscle-surge/status/:taskId` at the system level: reads only the
muscle-surge store. -/
def muscleStatusOf (sys : SystemState) (taskId : String) (now : Nat) : HttpResponse :=
  MuscleSurge.statusResponder sys.muscle taskId now

/-- `GET /api/anime-filter/status/:taskId` at the system level. -/
def animeStatusOf (sys : SystemState) (taskId : String) : HttpResponse :=
  AnimeFilter.statusResponder sys.anime taskId

/-- C10: task stores are isolated per effect module: starting an anime-filter
task leaves the muscle-surge store untouched, so a status query for the new
task id addressed to the muscle-surge endpoint returns 404 `not_found`, even
while the anime-filter endpoint reports the same id as `pending`. -/
theorem stores_isolated_across_modules
    (sys : SystemState) (req : AnimeFilter.StartReq) (freshId : String) (now : Nat)
    (hfresh : freshId ≠ "") (hnew : sys.muscle freshId = none)
    (hstarted : (startAnime sys req freshId).1.body.taskId = some freshId) :
    (startAnime sys req freshId).2.muscle = sys.muscle ∧
    muscleStatusOf (startAnime sys req freshId).2 freshId now =
      ⟨404, { success := false, status := some "not_found", error := some "Task not found" }⟩ ∧
    animeStatusOf (startAnime sys req freshId).2 freshId =
      ⟨200, { success := false, status := some "pending" }⟩ := by
  refine ⟨rfl, ?_, ?_⟩
  · simp [muscleStatusOf, startAnime, MuscleSurge.statusResponder, hfresh, hnew]
  · simp only [startAnime, animeStatusOf] at hstarted ⊢
    unfold AnimeFilter.startTask at hstarted ⊢
    by_cases h1 : jsTruthy req.imageUrl && urlOk (req.imageUrl.getD "")
    · by_cases h2 : jsTruthy req.style && decide (req.style.getD "" ∈ AnimeFilter.SUPPORTED_STYLES)
      · simp only [h1, h2] at hstarted ⊢
        simp [AnimeFilter.statusResponder, hfresh, setStore_self]
      · simp [h1, h2] at hstarted
    · simp [h1] at hstarted

/-- Witness for C10: a concrete anime-filter task id queried against the
muscle-surge endpoint. -/
theorem stores_isolated_across_modules_witness :
    muscleStatusOf
        (startAnime ⟨emptyStore, emptyStore⟩
          { imageUrl := some "https://example.com/a.jpg", style := some "ghibli" } "idX").2
        "idX" 5 =
      ⟨404, { success := false, status := some "not_found", error := some "Task not found" }⟩ := by
  exact (stores_isolated_across_modules ⟨emptyStore, emptyStore⟩
    { imageUrl := some "https://example.com/a.jpg", style := some "ghibli" } "idX" 5
    (by decide) rfl (by decide)).2.1

/-- The operations that touch the muscle-surge task store: the worker's
pre-await pending insert, the worker's final terminal write, a sweeper run,
and a status query (read-only in this module). -/
inductive MSOp : Type
  | startOp (id : String) (now : Nat)
  | finishOp (id : String) (t : MuscleSurge.Task)
  | sweepOp (now : Nat)
  | queryOp (id : String)
deriving DecidableEq, Repr

/-- Effect of one operation on the store. -/
def applyMSOp (s : MuscleSurge.Store) : MSOp → MuscleSurge.Store
  | .startOp id now => setStore s id { status := .pending, createdAt := now }
  | .finishOp id t => setStore s id t
  | .sweepOp now => MuscleSurge.sweepTasks s now
  | .queryOp _ => s

/-- Effect of a sequence of operations. -/
def applyMSOps (s : MuscleSurge.Store) : List MSOp → MuscleSurge.Store
  | [] => s
  | o :: rest => applyMSOps (applyMSOp s o) rest

/-- Does the operation write the entry of `id`? -/
def writesTo (id : String) : MSOp → Bool
  | .startOp i _ => i == id
  | .finishOp i _ => i == id
  | _ => false

/-- Is the operation the worker's terminal write for `id`? -/
def finishesTo (id : String) : MSOp → Bool
  | .finishOp i _ => i == id
  | _ => false

/-- The ordering guarantee of the single-threaded runtime: at most one worker
instance ever runs for a task identifier, so the store writes for `id` in a
trace are those of one worker run - at most one pending insert followed by at
most one terminal write, in that order. -/
def OneWorkerFor (tr : List MSOp) (id : String) : Prop :=
  tr.filter (writesTo id) = [] ∨
  (∃ n, tr.filter (writesTo id) = [MSOp.startOp id n]) ∨
  (∃ n t, tr.filter (writesTo id) = [MSOp.startOp id n, MSOp.finishOp id t] ∧
    isTerminal t.status = true)

theorem applyMSOps_append (s : MuscleSurge.Store) (xs ys : List MSOp) :
    applyMSOps s (xs ++ ys) = applyMSOps (applyMSOps s xs) ys := by
  induction xs generalizing s with
  | nil => rfl
  | cons o rest ih => simp [applyMSOps, ih]

theorem finishesTo_writesTo (id : String) (o : MSOp) (h : finishesTo id o = true) :
    writesTo id o = true := by
  cases o <;> simp_all [finishesTo, writesTo]

theorem no_write_keeps_none (tr : List MSOp) (s : MuscleSurge.Store) (id : String)
    (h0 : s id = none) (hnw : ∀ o ∈ tr, writesTo id o = false) :
    applyMSOps s tr id = none := by
  induction tr generalizing s with
  | nil => exact h0
  | cons o rest ih =>
    have hno : writesTo id o = false := hnw o (List.mem_cons_self o rest)
    have hrest : ∀ o2 ∈ rest, writesTo id o2 = false :=
      fun o2 h2 => hnw o2 (List.mem_cons_of_mem o h2)
    refine ih (applyMSOp s o) ?_ hrest
    cases o with
    | startOp i n =>
      have hni : ¬ i = id := by simpa [writesTo] using hno
      show setStore s i _ id = none
      rw [setStore_ne _ _ _ _ (Ne.symm hni)]
      exact h0
    | finishOp i t =>
      have hni : ¬ i = id := by simpa [writesTo] using hno
      show setStore s i _ id = none
      rw [setStore_ne _ _ _ _ (Ne.symm hni)]
      exact h0
    | sweepOp now =>
      show MuscleSurge.sweepTasks s now id = none
      unfold MuscleSurge.sweepTasks
      rw [h0]
    | queryOp i => exact h0

theorem no_write_keeps_some (tr : List MSOp) (s : MuscleSurge.Store) (id : String)
    (r : MuscleSurge.Task) (h0 : s id = some r)
    (hnw : ∀ o ∈ tr, writesTo id o = false) :
    applyMSOps s tr id = some r ∨ applyMSOps s tr id = none := by
  induction tr generalizing s with
  | nil => exact Or.inl h0
  | cons o rest ih =>
    have hno : writesTo id o = false := hnw o (List.mem_cons_self o rest)
    have hrest : ∀ o2 ∈ rest, writesTo id o2 = false :=
      fun o2 h2 => hnw o2 (List.mem_cons_of_mem o h2)
    cases o with
    | startOp i n =>
      have hni : ¬ i = id := by simpa [writesTo] using hno
      have h1 : applyMSOp s (.startOp i n) id = some r := by
        show setStore s i _ id = some r
        rw [setStore_ne _ _ _ _ (Ne.symm hni)]
        exact h0
      exact ih _ h1 hrest
    | finishOp i t =>
      have hni : ¬ i = id := by simpa [writesTo] using hno
      have h1 : applyMSOp s (.finishOp i t) id = some r := by
        show setStore s i _ id = some r
        rw [setStore_ne _ _ _ _ (Ne.symm hni)]
        exact h0
      exact ih _ h1 hrest
    | sweepOp now =>
      by_cases hdel : r.createdAt < now - MuscleSurge.TWO_HOURS_MS
      · have h1 : applyMSOp s (.sweepOp now) id = none := by
          show MuscleSurge.sweepTasks s now id = none
          unfold MuscleSurge.sweepTasks
          rw [h0]
          simp [hdel]
        exact Or.inr (no_write_keeps_none rest _ id h1 hrest)
      · have h1 : applyMSOp s (.sweepOp now) id = some r := by
          show MuscleSurge.sweepTasks s now id = some r
          unfold MuscleSurge.sweepTasks
          rw [h0]
          simp [hdel]
        exact ih _ h1 hrest
    | queryOp i => exact ih s h0 hrest

theorem no_finish_keeps_pending (tr : List MSOp) (s : MuscleSurge.Store) (id : String)
    (h0 : ∀ r, s id = some r → r.status = .pending)
    (hnf : ∀ o ∈ tr, finishesTo id o = false) :
    ∀ r, applyMSOps s tr id = some r → r.status = .pending := by
  induction tr generalizing s with
  | nil => exact h0
  | cons o rest ih =>
    have hno : finishesTo id o = false := hnf o (List.mem_cons_self o rest)
    have hrest : ∀ o2 ∈ rest, finishesTo id o2 = false :=
      fun o2 h2 => hnf o2 (List.mem_cons_of_mem o h2)
    refine ih (applyMSOp s o) ?_ hrest
    intro r hr
    cases o with
    | startOp i n =>
      by_cases hi : id = i
      · subst hi
        rw [show applyMSOp s (.startOp id n) id =
              some { status := .pending, createdAt := n } from setStore_self _ _ _] at hr
        cases hr
        rfl
      · have : applyMSOp s (.startOp i n) id = s id := setStore_ne _ _ _ _ hi
        rw [this] at hr
        exact h0 r hr
    | finishOp i t =>
      have hni : ¬ i = id := by simpa [finishesTo] using hno
      have : applyMSOp s (.finishOp i t) id = s id := setStore_ne _ _ _ _ (Ne.symm hni)
      rw [this] at hr
      exact h0 r hr
    | sweepOp now =>
      have hsr : s id = some r := by
        have hr2 : MuscleSurge.sweepTasks s now id = some r := hr
        unfold MuscleSurge.sweepTasks at hr2
        cases hs : s id with
        | none => rw [hs] at hr2; cases hr2
        | some t2 =>
          rw [hs] at hr2
          by_cases hd : t2.createdAt < now - MuscleSurge.TWO_HOURS_MS
          · simp [hd] at hr2
          · simp [hd] at hr2
            rw [hr2]
      exact h0 r hsr
    | queryOp i => exact h0 r hr

/-- C2: status monotonicity of a task-store entry: starting from a store
where the fresh id is absent, under the guarantee that at most one worker
instance runs for the id, once the entry holds a terminal record any further
operations (worker writes for other ids, sweeps, status queries) leave it
either unchanged or deleted - never back to `pending`, never switched to the
other terminal value. -/
theorem task_status_monotone
    (s0 : MuscleSurge.Store) (id : String) (pre post : List MSOp) (r : MuscleSurge.Task)
    (hfresh : s0 id = none)
    (hone : OneWorkerFor (pre ++ post) id)
    (hterm : applyMSOps s0 pre id = some r)
    (ht : isTerminal r.status = true) :
    applyMSOps s0 (pre ++ post) id = some r ∨ applyMSOps s0 (pre ++ post) id = none := by
  have hfin : ∃ o ∈ pre, finishesTo id o = true := by
    by_contra hc
    push_neg at hc
    have hp := no_finish_keeps_pending pre s0 id
      (fun r2 h2 => by rw [hfresh] at h2; cases h2)
      (fun o ho => by simpa using hc o ho)
    have hpend := hp r hterm
    rw [hpend] at ht
    exact absurd ht (by decide)
  obtain ⟨of, hofmem, hof⟩ := hfin
  have hoffil : of ∈ pre.filter (writesTo id) :=
    List.mem_filter.mpr ⟨hofmem, finishesTo_writesTo id of hof⟩
  have hsplit : (pre ++ post).filter (writesTo id) =
      pre.filter (writesTo id) ++ post.filter (writesTo id) := List.filter_append _ _
  have hpost : post.filter (writesTo id) = [] := by
    rcases hone with h | ⟨n, h⟩ | ⟨n, t, h, _⟩
    · rw [hsplit] at h
      have hpre0 : pre.filter (writesTo id) = [] := (List.append_eq_nil.mp h).1
      rw [hpre0] at hoffil
      cases hoffil
    · rw [hsplit] at h
      cases hp : pre.filter (writesTo id) with
      | nil => rw [hp] at hoffil; cases hoffil
      | cons y ys =>
        rw [hp] at h
        have h2 : ys ++ post.filter (writesTo id) = [] := by
          have := List.cons.inj h
          exact this.2
        exact (List.append_eq_nil.mp h2).2
    · rw [hsplit] at h
      cases hp : pre.filter (writesTo id) with
      | nil => rw [hp] at hoffil; cases hoffil
      | cons y ys =>
        cases ys with
        | nil =>
          rw [hp] at hoffil h
          have hy : y = MSOp.startOp id n ∧ post.filter (writesTo id) = [MSOp.finishOp id t] := by
            have := List.cons.inj h
            exact ⟨this.1, by simpa using this.2⟩
          have hofy : of = y := by simpa using hoffil
          rw [hofy, hy.1] at hof
          simp [finishesTo] at hof
        | cons y2 ys2 =>
          rw [hp] at h
          have h2 := List.cons.inj h
          have h3 := List.cons.inj h2.2
          exact (List.append_eq_nil.mp h3.2).2
  have hnw : ∀ o ∈ post, writesTo id o = false := by
    intro o ho
    by_contra hcc
    have hmem : o ∈ post.filter (writesTo id) :=
      List.mem_filter.mpr ⟨ho, by simpa using hcc⟩
    rw [hpost] at hmem
    cases hmem
  rw [applyMSOps_append]
  exact no_write_keeps_some post _ id r hterm hnw

/-- Witness for C2 at a concrete trace: one worker run for "a" (pending
insert, then terminal success write), followed by a query, a sweep inside the
retention window, and another task's worker write. -/
theorem task_status_monotone_witness :
    applyMSOps emptyStore
        ([MSOp.startOp "a" 0, MSOp.finishOp "a" { status := .success, videoUrl := some "https://v", createdAt := 0 }] ++
         [MSOp.queryOp "a", MSOp.sweepOp 10, MSOp.startOp "b" 3]) "a" =
      some { status := .success, videoUrl := some "https://v", createdAt := 0 } ∨
    applyMSOps emptyStore
        ([MSOp.startOp "a" 0, MSOp.finishOp "a" { status := .success, videoUrl := some "https://v", createdAt := 0 }] ++
         [MSOp.queryOp "a", MSOp.sweepOp 10, MSOp.startOp "b" 3]) "a" = none := by
  exact task_status_monotone emptyStore "a"
    [MSOp.startOp "a" 0, MSOp.finishOp "a" { status := .success, videoUrl := some "https://v", createdAt := 0 }]
    [MSOp.queryOp "a", MSOp.sweepOp 10, MSOp.startOp "b" 3]
    { status := .success, videoUrl := some "https://v", createdAt := 0 }
    rfl
    (Or.inr (Or.inr ⟨0, { status := .success, videoUrl := some "https://v", createdAt := 0 },
      by decide, by decide⟩))
    (by decide) (by decide)
